import Mathlib

/-!
Verification development for src/scripts/gpuinfo.py.

The Python module shells out to nvidia-smi, parses its CSV output into GPU
and GPUProcess records, filters GPUs by availability constraints, sorts and
prints them.  We embed the pure core (parsing, record construction,
filtering, sorting) shallowly in Lean:

* Python floats are modelled as `PFloat`: an exact rational or the
  not-a-number sentinel.  The numeric tokens in play are short decimal
  literals, so exact rationals faithfully represent every value the code
  computes, and the NaN comparison semantics (every comparison involving
  NaN is false) is modelled explicitly.
* Python exceptions (ZeroDivisionError, ValueError, IndexError) are
  modelled with `Except String`, the error string naming the exception
  class.
* The subprocess layer is IO; the functions below take the captured
  command output (a string) or the decoded line list as an argument.
-/

deriving instance DecidableEq for Except

/-- Python float values as used by gpuinfo.py: an exact rational or the
not-a-number sentinel produced for unparseable tokens. -/
inductive PFloat where
  | nan : PFloat
  | num : ℚ → PFloat
deriving DecidableEq, Repr

/-- Python `a <= b` on floats: false whenever either side is NaN. -/
def PFloat.leB : PFloat → PFloat → Bool
  | .num a, .num b => decide (a ≤ b)
  | _, _ => false

/-- Python `a >= b` on floats: false whenever either side is NaN. -/
def PFloat.geB : PFloat → PFloat → Bool
  | .num a, .num b => decide (b ≤ a)
  | _, _ => false

/-- Python float multiplication by a (non-NaN) literal: NaN propagates. -/
def PFloat.mulQ : PFloat → ℚ → PFloat
  | .nan, _ => .nan
  | .num a, c => .num (a * c)

/-- Python float division `a / b`.  CPython raises ZeroDivisionError when
the divisor compares equal to 0.0 (a NaN divisor does not); otherwise NaN
propagates and the finite case divides exactly. -/
def pyDivFloat (a b : PFloat) : Except String PFloat :=
  if b = .num 0 then .error "ZeroDivisionError: float division by zero"
  else
    match a, b with
    | .num x, .num y => .ok (.num (x / y))
    | _, _ => .ok .nan

/-- Python str.split with a nonempty separator, on character lists.  The
fuel argument (instantiated with the length of the input plus one) only
makes the recursion structural; every step consumes at least one
character, so the fuel is never exhausted. -/
def pySplitAux (sep : List Char) : Nat → List Char → List (List Char)
  | _, [] => [[]]
  | 0, cs => [cs]
  | fuel + 1, c :: cs =>
    if sep.isPrefixOf (c :: cs) then
      [] :: pySplitAux sep fuel ((c :: cs).drop sep.length)
    else
      match pySplitAux sep fuel cs with
      | [] => [[c]]
      | h :: t => (c :: h) :: t

/-- Python `s.split(sep)` for a nonempty separator string. -/
def pySplit (s sep : String) : List String :=
  (pySplitAux sep.data (s.data.length + 1) s.data).map (fun cs => String.mk cs)

/-- Python str.strip on character lists: drop leading and trailing
whitespace. -/
def pyStripChars (cs : List Char) : List Char :=
  ((cs.dropWhile Char.isWhitespace).reverse.dropWhile Char.isWhitespace).reverse

/-- Truthiness of `line.strip()`: the line has a non-whitespace character. -/
def lineIsNonBlank (l : String) : Bool :=
  !(pyStripChars l.data).isEmpty

/-- Value of a list of decimal digit characters. -/
def digitsVal (cs : List Char) : Nat :=
  cs.foldl (fun n c => 10 * n + (c.toNat - 48)) 0

/-- Unsigned decimal literal accepted by the Python float constructor:
digits, optionally with a decimal point on either side (12, 12., 12.5,
.5).  The result is a numerator and denominator pair; exponent, infinity
and nan spellings are not exercised by the data this program handles and
are not modelled. -/
def parseUnsignedDecimal (cs : List Char) : Option (Nat × Nat) :=
  let intPart := cs.takeWhile (·.isDigit)
  let rest := cs.dropWhile (·.isDigit)
  match rest with
  | [] => if intPart.isEmpty then none else some (digitsVal intPart, 1)
  | '.' :: frac =>
    if frac.all (·.isDigit) && !(intPart.isEmpty && frac.isEmpty) then
      some (digitsVal intPart * 10 ^ frac.length + digitsVal frac, 10 ^ frac.length)
    else none
  | _ => none

/-- Python `float(s)` on a string: strip whitespace, optional sign,
decimal literal; `none` models the ValueError raised on a malformed
token. -/
def pyFloatOfString (s : String) : Option ℚ :=
  match pyStripChars s.data with
  | '+' :: rest => (parseUnsignedDecimal rest).map (fun p => mkRat p.1 p.2)
  | '-' :: rest => (parseUnsignedDecimal rest).map (fun p => mkRat (-(p.1 : Int)) p.2)
  | cs => (parseUnsignedDecimal cs).map (fun p => mkRat p.1 p.2)

/-- Python `int(s)` on a string: strip whitespace, optional sign, digits;
`none` models the ValueError raised on a malformed token. -/
def pyIntOfString (s : String) : Option Int :=
  match pyStripChars s.data with
  | '+' :: rest => if !rest.isEmpty && rest.all (·.isDigit) then some ((digitsVal rest : Int)) else none
  | '-' :: rest => if !rest.isEmpty && rest.all (·.isDigit) then some (-(digitsVal rest : Int)) else none
  | cs => if !cs.isEmpty && cs.all (·.isDigit) then some ((digitsVal cs : Int)) else none

/-- gpuinfo.to_float_or_inf: try `float(value)`; on ValueError return the
NaN sentinel instead of raising. -/
def to_float_or_inf (value : String) : PFloat :=
  match pyFloatOfString value with
  | some q => .num q
  | none => .nan

/-- The GPU record of gpuinfo.py (class GPU), field for field.  The id,
uuid, driver, name, serial and the two display fields are stored as the
raw text tokens. -/
structure GPU where
  id : String
  uuid : String
  gpu_util : PFloat
  mem_util : PFloat
  mem_total : PFloat
  mem_used : PFloat
  mem_free : PFloat
  driver : String
  name : String
  serial : String
  display_mode : String
  display_active : String
  temperature : PFloat
deriving DecidableEq, Repr

/-- GPU.__init__ with its exact positional parameter order
(id, uuid, gpu_util, mem_total, mem_used, mem_free, driver, gpu_name,
serial, display_mode, display_active, temperature).  It computes
mem_util = float(mem_used) / float(mem_total) * 100, which raises
ZeroDivisionError when mem_total equals zero. -/
def GPU.init (id uuid : String) (gpu_util mem_total mem_used mem_free : PFloat)
    (driver gpu_name serial display_mode display_active : String)
    (temperature : PFloat) : Except String GPU := do
  let ratio ← pyDivFloat mem_used mem_total
  .ok {
    id := id, uuid := uuid, gpu_util := gpu_util,
    mem_util := ratio.mulQ 100,
    mem_total := mem_total, mem_used := mem_used, mem_free := mem_free,
    driver := driver, name := gpu_name, serial := serial,
    display_mode := display_mode, display_active := display_active,
    temperature := temperature }

/-- Structural positional lookup in a list (List.get?, restated so that
it reduces even when the tail of the list is symbolic). -/
def pyIndex (xs : List String) (i : Nat) : Option String :=
  match xs, i with
  | [], _ => none
  | a :: _, 0 => some a
  | _ :: l, n + 1 => pyIndex l n

/-- Python list indexing `values[i]`: IndexError past the end. -/
def listGet (xs : List String) (i : Nat) : Except String String :=
  match pyIndex xs i with
  | some v => .ok v
  | none => .error "IndexError: list index out of range"

/-- gpuinfo._get_gpu: split the line on the comma-plus-space delimiter,
read the twelve fields by position and build the GPU record.  The call
passes display_mode (values[10]) and display_active (values[9]) in the
order the constructor declares them, so each attribute receives the token
of its own query field. -/
def _get_gpu (line : String) : Except String GPU := do
  let values := pySplit line ", "
  let id ← listGet values 0
  let uuid ← listGet values 1
  let gpu_util := to_float_or_inf (← listGet values 2)
  let mem_total := to_float_or_inf (← listGet values 3)
  let mem_used := to_float_or_inf (← listGet values 4)
  let mem_free := to_float_or_inf (← listGet values 5)
  let driver ← listGet values 6
  let gpu_name ← listGet values 7
  let serial ← listGet values 8
  let display_active ← listGet values 9
  let display_mode ← listGet values 10
  let temp_gpu := to_float_or_inf (← listGet values 11)
  GPU.init id uuid gpu_util mem_total mem_used mem_free driver gpu_name
    serial display_mode display_active temp_gpu

/-- A Python value as stored in GPUProcess.gpu_id: either the id string
taken from the uuid-to-id dict, or the integer default -1 passed to
dict.get for an unknown uuid. -/
inductive PyVal where
  | str : String → PyVal
  | int : Int → PyVal
deriving DecidableEq, Repr

/-- The GPUProcess record of gpuinfo.py (class GPUProcess). -/
structure GPUProcess where
  pid : Int
  process_name : String
  gpu_id : PyVal
  gpu_uuid : String
  gpu_name : String
  used_memory : PFloat
deriving DecidableEq, Repr

/-- Python dict lookup for a dict built from an association list by a
comprehension: later bindings overwrite earlier ones, so the last
matching pair wins. -/
def dictGet (m : List (String × String)) (k : String) : Option String :=
  m.reverse.lookup k

/-- gpuinfo._get_gpu_proc: split the line, strictly parse the pid (a
malformed pid raises ValueError), read the remaining fields, resolve the
gpu id through the caller-supplied uuid-to-id mapping with default -1. -/
def _get_gpu_proc (line : String) (gpu_uuid_to_id : List (String × String)) :
    Except String GPUProcess := do
  let pid ← match pyIntOfString (← listGet (pySplit line ", ") 0) with
    | some n => Except.ok n
    | none => Except.error "ValueError: invalid literal for int"
  let process_name ← listGet (pySplit line ", ") 1
  let gpu_uuid ← listGet (pySplit line ", ") 2
  let gpu_name ← listGet (pySplit line ", ") 3
  let used_memory := to_float_or_inf (← listGet (pySplit line ", ") 4)
  let gpu_id := match dictGet gpu_uuid_to_id gpu_uuid with
    | some v => PyVal.str v
    | none => PyVal.int (-1)
  .ok { pid := pid, process_name := process_name, gpu_id := gpu_id,
        gpu_uuid := gpu_uuid, gpu_name := gpu_name, used_memory := used_memory }

/-- gpuinfo.get_gpus on the captured command output (os.linesep is the
newline on the target platform): split into lines, keep the lines whose
strip() is non-empty, parse each.  Every caller consumes the generator
with list(), so the first parse error propagates. -/
def get_gpus (output : String) : Except String (List GPU) :=
  ((pySplit output "\n").filter lineIsNonBlank).mapM _get_gpu

/-- The uuid-to-id dict comprehension of gpuinfo.get_gpu_processes. -/
def gpu_uuid_to_id_map (gpus : List GPU) : List (String × String) :=
  gpus.map (fun g => (g.uuid, g.id))

/-- gpuinfo.get_gpu_processes on the two captured command outputs. -/
def get_gpu_processes (gpuOutput procOutput : String) : Except String (List GPUProcess) := do
  let gpus ← get_gpus gpuOutput
  ((pySplit procOutput "\n").filter lineIsNonBlank).mapM
    (fun line => _get_gpu_proc line (gpu_uuid_to_id_map gpus))

/-- gpuinfo.is_gpu_available: the conjunction of the five constraints,
with Python float comparison semantics (a NaN field fails its
comparison).  The thresholds the CLI supplies are finite numbers,
embedded as exact rationals. -/
def is_gpu_available (gpu : GPU) (gpu_util_max mem_util_max mem_free_min : ℚ)
    (include_ids include_uuids : List String) : Bool :=
  gpu.gpu_util.leB (.num gpu_util_max) &&
  gpu.mem_util.leB (.num mem_util_max) &&
  gpu.mem_free.geB (.num mem_free_min) &&
  include_ids.contains gpu.id &&
  include_uuids.contains gpu.uuid

/-- gpuinfo.get_available_gpus on a snapshot.  A falsy include argument
(Python None or an empty collection) is replaced by the ids
(respectively uuids) of the snapshot itself, modelled by the empty list;
itertools.compress with the is_gpu_available selectors is a filter. -/
def get_available_gpus (gpus : List GPU) (gpu_util_max mem_util_max mem_free_min : ℚ)
    (include_ids include_uuids : List String) : List GPU :=
  let ids := if include_ids.isEmpty then gpus.map (·.id) else include_ids
  let uuids := if include_uuids.isEmpty then gpus.map (·.uuid) else include_uuids
  gpus.filter (fun gpu => is_gpu_available gpu gpu_util_max mem_util_max mem_free_min ids uuids)

/-- The three admissible --sort choices of the ls subcommand. -/
inductive SortKey where
  | id : SortKey
  | gpu_util : SortKey
  | mem_util : SortKey
deriving DecidableEq, Repr

/-- Order on a float-valued sort attribute.  On the filtered records the
utilization keys are finite, where this is exactly the Python float
order; NaN is placed first only to make the function total. -/
def pfSortLe : PFloat → PFloat → Bool
  | .num a, .num b => decide (a ≤ b)
  | .nan, _ => true
  | .num _, .nan => false

/-- Comparison of two GPU records by a sort key; the id attribute is the
raw text token, compared as a string (lexicographically). -/
def keyLeB : SortKey → GPU → GPU → Bool
  | .id, a, b => decide (a.id ≤ b.id)
  | .gpu_util, a, b => pfSortLe a.gpu_util b.gpu_util
  | .mem_util, a, b => pfSortLe a.mem_util b.mem_util

/-- The sort in gpuinfo._nvsmi_ls: gpus.sort(key=operator.attrgetter(s))
is a stable ascending sort by the chosen attribute, modelled as a stable
merge sort. -/
def nvsmiSort (key : SortKey) (gpus : List GPU) : List GPU :=
  gpus.mergeSort (keyLeB key)

/-- A concrete available GPU record used in counterexamples and
witnesses (matching the worked example of the specification). -/
def gpuA : GPU :=
  { id := "0", uuid := "GPU-a", gpu_util := .num 5, mem_util := .num 25,
    mem_total := .num 8000, mem_used := .num 2000, mem_free := .num 6000,
    driver := "525.60", name := "Tesla T4", serial := "SN123",
    display_mode := "Active", display_active := "Enabled", temperature := .num 45 }

/-- A GPU record whose id token is the string "9". -/
def gpuB9 : GPU :=
  { id := "9", uuid := "GPU-b9", gpu_util := .num 5, mem_util := .num 25,
    mem_total := .num 8000, mem_used := .num 2000, mem_free := .num 6000,
    driver := "525.60", name := "Tesla T4", serial := "SN9",
    display_mode := "Active", display_active := "Enabled", temperature := .num 45 }

/-- A GPU record whose id token is the string "10". -/
def gpuB10 : GPU :=
  { id := "10", uuid := "GPU-b10", gpu_util := .num 5, mem_util := .num 25,
    mem_total := .num 8000, mem_used := .num 2000, mem_free := .num 6000,
    driver := "525.60", name := "Tesla T4", serial := "SN10",
    display_mode := "Active", display_active := "Enabled", temperature := .num 45 }

/-- Widening of an include list under the empty-means-all default: the
second list is no restriction at all, or the first is itself a genuine
restriction contained in the second. -/
def listWiden (a b : List String) : Prop := b = [] ∨ (a ≠ [] ∧ a ⊆ b)

/-- Two records agree on the chosen sort attribute with a reference
record; filtering by this predicate selects one tie class. -/
def keyValEq (key : SortKey) (z : GPU) : GPU → Bool
  | g =>
    match key with
    | .id => g.id == z.id
    | .gpu_util => g.gpu_util == z.gpu_util
    | .mem_util => g.mem_util == z.mem_util

example : (_get_gpu "0, GPU-abc, 5, 8000, 2000, 6000, 525.60, Tesla T4, SN123, Enabled, Active, 45").map
    (fun g => (g.id, g.uuid, g.gpu_util)) = .ok ("0", "GPU-abc", .num 5) := by decide

example : (_get_gpu "0, GPU-abc, 5, 8000, 2000, 6000, 525.60, Tesla T4, SN123, Enabled, Active, 45").map
    (fun g => (g.display_active, g.display_mode, g.mem_free)) = .ok ("Enabled", "Active", .num 6000) := by decide

/-! ## Helper lemmas -/

theorem except_error_bind {α β : Type} {e : String} {f : α → Except String β} :
    ((Except.error e : Except String α) >>= f) = .error e := rfl

theorem except_ok_bind {α β : Type} {a : α} {f : α → Except String β} :
    ((Except.ok a : Except String α) >>= f) = f a := rfl

theorem except_bind_eq_ok {α β : Type} {x : Except String α} {f : α → Except String β} {b : β} :
    (x >>= f) = .ok b ↔ ∃ a, x = .ok a ∧ f a = .ok b := by
  cases x with
  | error e =>
    constructor
    · intro h; exact absurd h (by intro h; cases h)
    · rintro ⟨a, ha, -⟩; cases ha
  | ok a =>
    constructor
    · intro h; exact ⟨a, rfl, h⟩
    · rintro ⟨a', ha, hf⟩; cases ha; exact hf

theorem listGet_cons_zero {a : String} {l : List String} : listGet (a :: l) 0 = .ok a := rfl

theorem listGet_eq_ok {xs : List String} {i : Nat} {v : String} :
    listGet xs i = .ok v ↔ pyIndex xs i = some v := by
  unfold listGet
  cases h : pyIndex xs i with
  | none => simp
  | some w => simp

theorem leB_num_iff {p : PFloat} {q : ℚ} :
    p.leB (.num q) = true ↔ ∃ x, p = .num x ∧ x ≤ q := by
  cases p <;> simp [PFloat.leB]

theorem geB_num_iff {p : PFloat} {q : ℚ} :
    p.geB (.num q) = true ↔ ∃ x, p = .num x ∧ q ≤ x := by
  cases p <;> simp [PFloat.geB]

/-! ## C1 -/

/-- C1 fails as stated: on a GPU line whose memory-total field is the
well-formed token 0, record construction raises ZeroDivisionError (a
crash) instead of producing the NaN sentinel. -/
theorem C1_cex :
    _get_gpu "0, GPU-abc, 5, 0, 2000, 6000, 525.60, Tesla T4, SN123, Enabled, Active, 45" =
      .error "ZeroDivisionError: float division by zero" := by decide

/-- C1 (amended): the derived memory utilization equals
mem_used / mem_total * 100 when mem_total is a nonzero number (NaN when
mem_used is NaN), and is NaN when mem_total is NaN; but when mem_total
is zero, construction raises a division-by-zero error rather than
producing NaN. -/
theorem C1_mem_util (id uuid : String) (gpu_util mem_total mem_used mem_free : PFloat)
    (driver gpu_name serial display_mode display_active : String) (temperature : PFloat) :
    (mem_total = PFloat.num 0 →
      GPU.init id uuid gpu_util mem_total mem_used mem_free driver gpu_name serial
        display_mode display_active temperature =
        .error "ZeroDivisionError: float division by zero") ∧
    (mem_total = PFloat.nan →
      ∃ g, GPU.init id uuid gpu_util mem_total mem_used mem_free driver gpu_name serial
        display_mode display_active temperature = .ok g ∧ g.mem_util = PFloat.nan) ∧
    (∀ t : ℚ, t ≠ 0 → mem_total = PFloat.num t →
      ∃ g, GPU.init id uuid gpu_util mem_total mem_used mem_free driver gpu_name serial
        display_mode display_active temperature = .ok g ∧
        g.mem_util = (match mem_used with
          | PFloat.nan => PFloat.nan
          | PFloat.num u => PFloat.num (u / t * 100))) := by
  refine ⟨?_, ?_, ?_⟩
  · rintro rfl
    simp [GPU.init, pyDivFloat, except_error_bind]
  · rintro rfl
    cases mem_used <;>
      simp [GPU.init, pyDivFloat, PFloat.mulQ, except_error_bind, except_ok_bind]
  · rintro t ht rfl
    cases mem_used <;>
      simp [GPU.init, pyDivFloat, PFloat.mulQ, except_error_bind, except_ok_bind, ht]

/-- Witness for C1_mem_util at the concrete snapshot line values. -/
theorem C1_wit :
    ∃ g, GPU.init "0" "GPU-abc" (.num 5) (.num 8000) (.num 2000) (.num 6000) "525.60"
      "Tesla T4" "SN123" "Active" "Enabled" (.num 45) = .ok g ∧
      g.mem_util = PFloat.num (2000 / 8000 * 100) :=
  (C1_mem_util "0" "GPU-abc" (.num 5) (.num 8000) (.num 2000) (.num 6000) "525.60"
    "Tesla T4" "SN123" "Active" "Enabled" (.num 45)).2.2 8000 (by decide) rfl

/-! ## C3 -/

/-- C3: the availability predicate holds iff all five constraints hold
under standard float comparison semantics: each numeric field must be an
actual number within its threshold, and the id and uuid must belong to
the include collections.  A record whose gpu_util, mem_util or mem_free
is NaN falsifies the corresponding existential, hence is never
available; the predicate is a total boolean function, so evaluating it
never raises an error. -/
theorem C3_is_gpu_available_iff (gpu : GPU) (gpu_util_max mem_util_max mem_free_min : ℚ)
    (include_ids include_uuids : List String) :
    is_gpu_available gpu gpu_util_max mem_util_max mem_free_min include_ids include_uuids
        = true ↔
      ((∃ x, gpu.gpu_util = .num x ∧ x ≤ gpu_util_max) ∧
       (∃ y, gpu.mem_util = .num y ∧ y ≤ mem_util_max) ∧
       (∃ z, gpu.mem_free = .num z ∧ mem_free_min ≤ z) ∧
       gpu.id ∈ include_ids ∧ gpu.uuid ∈ include_uuids) := by
  simp [is_gpu_available, leB_num_iff, geB_num_iff, List.contains, List.elem_iff,
    Bool.and_eq_true, and_assoc]

/-! ## C7 -/

/-- C7: an empty (or unspecified, since Python treats None and an empty
collection alike) include_ids list behaves exactly as the list of every
id of the snapshot being filtered, and likewise for include_uuids; with
both empty the identity conjuncts impose no restriction at all, leaving
only the three threshold tests. -/
theorem C7_empty_includes (gpus : List GPU) (gpu_util_max mem_util_max mem_free_min : ℚ)
    (ids uuids : List String) :
    (get_available_gpus gpus gpu_util_max mem_util_max mem_free_min [] uuids =
      get_available_gpus gpus gpu_util_max mem_util_max mem_free_min
        (gpus.map (fun g => g.id)) uuids) ∧
    (get_available_gpus gpus gpu_util_max mem_util_max mem_free_min ids [] =
      get_available_gpus gpus gpu_util_max mem_util_max mem_free_min
        ids (gpus.map (fun g => g.uuid))) ∧
    (get_available_gpus gpus gpu_util_max mem_util_max mem_free_min [] [] =
      gpus.filter (fun gpu => gpu.gpu_util.leB (.num gpu_util_max) &&
        gpu.mem_util.leB (.num mem_util_max) && gpu.mem_free.geB (.num mem_free_min))) := by
  refine ⟨?_, ?_, ?_⟩
  · cases gpus with
    | nil => rfl
    | cons g gs => simp [get_available_gpus]
  · cases gpus with
    | nil => rfl
    | cons g gs => simp [get_available_gpus]
  · unfold get_available_gpus
    simp only [List.isEmpty_nil, if_pos]
    apply List.filter_congr
    intro g hg
    have e1 : ∃ a ∈ gpus, a.id = g.id := ⟨g, hg, rfl⟩
    have e2 : ∃ a ∈ gpus, a.uuid = g.uuid := ⟨g, hg, rfl⟩
    simp [is_gpu_available, e1, e2]

/-! ## C4 -/

/-- C4 fails as stated: because an empty include list means "no
restriction", enlarging it in the subset sense can shrink the result.
Here the include_ids list grows from [] to ["1"] (a superset, all other
constraints unchanged), yet the GPU included under the first constraints
disappears under the second. -/
theorem C4_cex :
    ([] : List String) ⊆ ["1"] ∧
    gpuA ∈ get_available_gpus [gpuA] 100 100 0 [] [] ∧
    gpuA ∉ get_available_gpus [gpuA] 100 100 0 ["1"] [] :=
  ⟨by simp, by decide, by decide⟩

theorem leB_mono {p : PFloat} {q q' : ℚ} (hq : q ≤ q') (h : p.leB (.num q) = true) :
    p.leB (.num q') = true := by
  rw [leB_num_iff] at h ⊢
  obtain ⟨x, hx, hxq⟩ := h
  exact ⟨x, hx, le_trans hxq hq⟩

theorem geB_mono {p : PFloat} {q q' : ℚ} (hq : q' ≤ q) (h : p.geB (.num q) = true) :
    p.geB (.num q') = true := by
  rw [geB_num_iff] at h ⊢
  obtain ⟨x, hx, hxq⟩ := h
  exact ⟨x, hx, le_trans hq hxq⟩

theorem contains_effective_mono {gpus : List GPU} {sel : GPU → String}
    {l l' : List String} (hw : listWiden l l') {g : GPU} (hmem : g ∈ gpus)
    (h : (if l.isEmpty then gpus.map sel else l).contains (sel g) = true) :
    (if l'.isEmpty then gpus.map sel else l').contains (sel g) = true := by
  rcases hw with rfl | ⟨hne, hsub⟩
  · simp only [List.isEmpty_nil, if_pos, List.contains, List.elem_iff, List.mem_map]
    exact ⟨g, hmem, rfl⟩
  · have hl : l.isEmpty = false := by
      cases l with
      | nil => exact absurd rfl hne
      | cons a as => rfl
    rw [hl] at h
    simp only [Bool.false_eq_true, if_neg] at h
    rw [List.contains, List.elem_iff] at h
    have hmem' : sel g ∈ l' := hsub h
    have hl' : l'.isEmpty = false := by
      cases l' with
      | nil => cases hmem'
      | cons a as => rfl
    rw [hl']
    simp only [Bool.false_eq_true, if_neg]
    rw [List.contains, List.elem_iff]
    exact hmem'

/-- C4 (amended): filtering is monotone when the widening of the include
lists is read through the empty-means-all default: thresholds non-strictly
relaxed, and each include list either replaced by the unrestricted empty
list or kept a nonempty list that only grows.  Under the literal
subset reading the property fails, see the counterexample. -/
theorem C4_monotone (gpus : List GPU) (a b c a' b' c' : ℚ)
    (ids uuids ids' uuids' : List String) (g : GPU)
    (ha : a ≤ a') (hb : b ≤ b') (hc : c' ≤ c)
    (hids : listWiden ids ids') (huuids : listWiden uuids uuids')
    (hg : g ∈ get_available_gpus gpus a b c ids uuids) :
    g ∈ get_available_gpus gpus a' b' c' ids' uuids' := by
  unfold get_available_gpus at hg ⊢
  rw [List.mem_filter] at hg ⊢
  obtain ⟨hmem, hava⟩ := hg
  refine ⟨hmem, ?_⟩
  rw [is_gpu_available] at hava ⊢
  simp only [Bool.and_eq_true] at hava ⊢
  obtain ⟨⟨⟨⟨h1, h2⟩, h3⟩, h4⟩, h5⟩ := hava
  exact ⟨⟨⟨⟨leB_mono ha h1, leB_mono hb h2⟩, geB_mono hc h3⟩,
    contains_effective_mono hids hmem h4⟩,
    contains_effective_mono huuids hmem h5⟩

/-- Witness for C4_monotone: relaxing the thresholds and growing a
nonempty include_ids list keeps gpuA in the result. -/
theorem C4_wit : gpuA ∈ get_available_gpus [gpuA] 100 100 0 ["0", "1"] [] :=
  C4_monotone [gpuA] 50 50 10 100 100 0 ["0"] ["GPU-a"] ["0", "1"] [] gpuA
    (by decide) (by decide) (by decide)
    (Or.inr ⟨by decide, by decide⟩) (Or.inl rfl) (by decide)

/-! ## Parsing shape helpers -/

theorem pyDivFloat_ok {a b : PFloat} (h : b ≠ PFloat.num 0) :
    ∃ r, pyDivFloat a b = .ok r := by
  unfold pyDivFloat
  rw [if_neg h]
  cases a <;> cases b <;> exact ⟨_, rfl⟩

theorem get_gpu_eval (line : String)
    (t0 t1 t2 t3 t4 t5 t6 t7 t8 t9 t10 t11 : String) (rest : List String)
    (hv : pySplit line ", " =
      t0 :: t1 :: t2 :: t3 :: t4 :: t5 :: t6 :: t7 :: t8 :: t9 :: t10 :: t11 :: rest) :
    _get_gpu line = GPU.init t0 t1 (to_float_or_inf t2) (to_float_or_inf t3)
      (to_float_or_inf t4) (to_float_or_inf t5) t6 t7 t8 t10 t9 (to_float_or_inf t11) := by
  unfold _get_gpu
  rw [hv]
  rfl

/-- A successful GPU parse forces at least twelve fields, and fixes how
every attribute is wired to its position in the line. -/
theorem get_gpu_shape {line : String} {g : GPU} (h : _get_gpu line = .ok g) :
    ∃ t0 t1 t2 t3 t4 t5 t6 t7 t8 t9 t10 t11 rest,
      pySplit line ", " =
        t0 :: t1 :: t2 :: t3 :: t4 :: t5 :: t6 :: t7 :: t8 :: t9 :: t10 :: t11 :: rest ∧
      g.id = t0 ∧ g.uuid = t1 ∧ g.gpu_util = to_float_or_inf t2 ∧
      g.mem_total = to_float_or_inf t3 ∧ g.mem_used = to_float_or_inf t4 ∧
      g.mem_free = to_float_or_inf t5 ∧ g.driver = t6 ∧ g.name = t7 ∧
      g.serial = t8 ∧ g.display_active = t9 ∧ g.display_mode = t10 ∧
      g.temperature = to_float_or_inf t11 := by
  rcases hv : pySplit line ", " with
    _ | ⟨t0, _ | ⟨t1, _ | ⟨t2, _ | ⟨t3, _ | ⟨t4, _ | ⟨t5, _ | ⟨t6, _ | ⟨t7, _ | ⟨t8,
      _ | ⟨t9, _ | ⟨t10, _ | ⟨t11, rest⟩⟩⟩⟩⟩⟩⟩⟩⟩⟩⟩⟩ <;>
    first
      | (exfalso
         rw [show _get_gpu line = .error "IndexError: list index out of range" by
              unfold _get_gpu; rw [hv]; rfl] at h
         exact absurd h (by intro h; cases h))
      | skip
  rw [get_gpu_eval line t0 t1 t2 t3 t4 t5 t6 t7 t8 t9 t10 t11 rest hv] at h
  unfold GPU.init at h
  rcases hdiv : pyDivFloat (to_float_or_inf t4) (to_float_or_inf t3) with e | r
  · rw [hdiv, except_error_bind] at h
    exact absurd h (by intro h; cases h)
  · rw [hdiv, except_ok_bind] at h
    injection h with h
    subst h
    exact ⟨t0, t1, t2, t3, t4, t5, t6, t7, t8, t9, t10, t11, rest, rfl,
      rfl, rfl, rfl, rfl, rfl, rfl, rfl, rfl, rfl, rfl, rfl, rfl⟩


/-! ## C2 -/

/-- C2 fails as stated: on the specification's own example line, the
record's display-active attribute carries the token at position 9 (the
query's display_active position, "Enabled") and display-mode the token
at position 10 ("Active"), not the other way around. -/
theorem C2_cex :
    pyIndex (pySplit "0, GPU-abc, 5, 8000, 2000, 6000, 525.60, Tesla T4, SN123, Enabled, Active, 45" ", ") 9
        = some "Enabled" ∧
    pyIndex (pySplit "0, GPU-abc, 5, 8000, 2000, 6000, 525.60, Tesla T4, SN123, Enabled, Active, 45" ", ") 10
        = some "Active" ∧
    (_get_gpu "0, GPU-abc, 5, 8000, 2000, 6000, 525.60, Tesla T4, SN123, Enabled, Active, 45").map
        (fun g => g.display_active) = .ok "Enabled" ∧
    (_get_gpu "0, GPU-abc, 5, 8000, 2000, 6000, 525.60, Tesla T4, SN123, Enabled, Active, 45").map
        (fun g => g.display_mode) = .ok "Active" ∧
    ("Enabled" : String) ≠ "Active" := by
  refine ⟨by decide, by decide, by decide, by decide, by decide⟩

/-- C2 (amended): each display attribute receives the token of its own
query position — display-active the value at position 9 and display-mode
the value at position 10.  The constructor declares display_mode before
display_active, but the call site passes the two locals in exactly that
order, so no swap occurs in the resulting record. -/
theorem C2_display_fields {line : String} {g : GPU} (h : _get_gpu line = .ok g) :
    pyIndex (pySplit line ", ") 9 = some g.display_active ∧
    pyIndex (pySplit line ", ") 10 = some g.display_mode := by
  obtain ⟨t0, t1, t2, t3, t4, t5, t6, t7, t8, t9, t10, t11, rest, hv,
    -, -, -, -, -, -, -, -, -, h9, h10, -⟩ := get_gpu_shape h
  rw [hv, h9, h10]
  exact ⟨rfl, rfl⟩

/-- Witness for C2_display_fields on a concrete parsed line (with an
unparseable memory total, so every derived field is a literal value). -/
theorem C2_wit :
    pyIndex (pySplit "1, GPU-def, 7, N/A, 4000, 12000, 535.10, RTX A6000, SN9, Disabled, Inactive, 40" ", ") 9
        = some (GPU.mk "1" "GPU-def" (.num 7) .nan .nan (.num 4000) (.num 12000)
            "535.10" "RTX A6000" "SN9" "Inactive" "Disabled" (.num 40)).display_active ∧
    pyIndex (pySplit "1, GPU-def, 7, N/A, 4000, 12000, 535.10, RTX A6000, SN9, Disabled, Inactive, 40" ", ") 10
        = some (GPU.mk "1" "GPU-def" (.num 7) .nan .nan (.num 4000) (.num 12000)
            "535.10" "RTX A6000" "SN9" "Inactive" "Disabled" (.num 40)).display_mode :=
  C2_display_fields (by decide)

/-! ## C9 -/

/-- C9: on a well-formed process line (at least five fields, integer
pid), parsing always succeeds, stores the raw uuid token, and resolves
the owning GPU id through the mapping: the mapping's value when the uuid
is present, the sentinel -1 when it is absent — never an error. -/
theorem C9_gpu_id_resolution (line : String) (m : List (String × String))
    (a0 a1 a2 a3 a4 : String) (rest : List String) (n : Int)
    (hv : pySplit line ", " = a0 :: a1 :: a2 :: a3 :: a4 :: rest)
    (hpid : pyIntOfString a0 = some n) :
    ∃ proc, _get_gpu_proc line m = .ok proc ∧ proc.gpu_uuid = a2 ∧
      (dictGet m a2 = none → proc.gpu_id = PyVal.int (-1)) ∧
      (∀ v, dictGet m a2 = some v → proc.gpu_id = PyVal.str v) := by
  refine ⟨{ pid := n, process_name := a1,
            gpu_id := match dictGet m a2 with
              | some v => PyVal.str v
              | none => PyVal.int (-1),
            gpu_uuid := a2, gpu_name := a3, used_memory := to_float_or_inf a4 },
    ?_, rfl, ?_, ?_⟩
  · unfold _get_gpu_proc
    rw [hv]
    rw [show listGet (a0 :: a1 :: a2 :: a3 :: a4 :: rest) 0 = .ok a0 from rfl,
      except_ok_bind, hpid]
    rfl
  · intro hnone
    simp [hnone]
  · intro v hsome
    simp [hsome]

/-- Witness for C9_gpu_id_resolution: a process line whose uuid is
absent from the mapping parses fine and resolves to -1. -/
theorem C9_wit :
    ∃ proc, _get_gpu_proc "1234, python3, GPU-zzz, Tesla V100, 2048" [("GPU-abc", "0")] =
        .ok proc ∧ proc.gpu_uuid = "GPU-zzz" ∧
      (dictGet [("GPU-abc", "0")] "GPU-zzz" = none → proc.gpu_id = PyVal.int (-1)) ∧
      (∀ v, dictGet [("GPU-abc", "0")] "GPU-zzz" = some v → proc.gpu_id = PyVal.str v) :=
  C9_gpu_id_resolution "1234, python3, GPU-zzz, Tesla V100, 2048" [("GPU-abc", "0")]
    "1234" "python3" "GPU-zzz" "Tesla V100" "2048" [] 1234 (by decide) (by decide)

/-! ## C5 -/

/-- C5 fails as stated: on a GPU line with a malformed utilization token
(which does coerce to NaN) but a zero memory total, record construction
still aborts — with a division-by-zero error — so "a malformed token in
any float field yields NaN and record construction still succeeds" is
not universally true. -/
theorem C5_cex :
    to_float_or_inf "N/A" = PFloat.nan ∧
    _get_gpu "0, GPU-abc, N/A, 0, 2000, 6000, 525.60, Tesla T4, SN123, Enabled, Active, 45" =
      .error "ZeroDivisionError: float division by zero" :=
  ⟨by decide, by decide⟩

/-- C5 (amended): numeric coercion strictly parses a decimal and returns
the NaN sentinel instead of raising on failure, so a malformed float
token yields a NaN field while GPU record construction succeeds provided
the memory-total token does not parse to zero (a zero total aborts
construction with a division-by-zero error regardless of which other
tokens are malformed); a malformed pid token aborts process-record
construction with a ValueError. -/
theorem C5_coercion :
    (∀ s, pyFloatOfString s = none → to_float_or_inf s = PFloat.nan) ∧
    (∀ s q, pyFloatOfString s = some q → to_float_or_inf s = PFloat.num q) ∧
    (∀ line a0 a1 a2 a3 a4 a5 a6 a7 a8 a9 a10 a11 rest,
      pySplit line ", " =
        a0 :: a1 :: a2 :: a3 :: a4 :: a5 :: a6 :: a7 :: a8 :: a9 :: a10 :: a11 :: rest →
      pyFloatOfString a3 ≠ some 0 →
      ∃ g, _get_gpu line = .ok g ∧ g.gpu_util = to_float_or_inf a2 ∧
        g.mem_total = to_float_or_inf a3 ∧ g.mem_used = to_float_or_inf a4 ∧
        g.mem_free = to_float_or_inf a5 ∧ g.temperature = to_float_or_inf a11) ∧
    (∀ line m a0, pyIndex (pySplit line ", ") 0 = some a0 → pyIntOfString a0 = none →
      _get_gpu_proc line m = .error "ValueError: invalid literal for int") := by
  refine ⟨?_, ?_, ?_, ?_⟩
  · intro s h
    unfold to_float_or_inf
    rw [h]
  · intro s q h
    unfold to_float_or_inf
    rw [h]
  · intro line a0 a1 a2 a3 a4 a5 a6 a7 a8 a9 a10 a11 rest hv hne
    have htot : to_float_or_inf a3 ≠ PFloat.num 0 := by
      unfold to_float_or_inf
      cases hp : pyFloatOfString a3 with
      | none => simp
      | some q =>
        simp only [ne_eq, PFloat.num.injEq]
        rintro rfl
        exact hne hp
    obtain ⟨r, hr⟩ := pyDivFloat_ok (a := to_float_or_inf a4) htot
    refine ⟨{ id := a0, uuid := a1, gpu_util := to_float_or_inf a2,
              mem_util := r.mulQ 100, mem_total := to_float_or_inf a3,
              mem_used := to_float_or_inf a4, mem_free := to_float_or_inf a5,
              driver := a6, name := a7, serial := a8, display_mode := a10,
              display_active := a9, temperature := to_float_or_inf a11 },
      ?_, rfl, rfl, rfl, rfl, rfl⟩
    rw [get_gpu_eval line a0 a1 a2 a3 a4 a5 a6 a7 a8 a9 a10 a11 rest hv]
    unfold GPU.init
    rw [hr]
    rfl
  · intro line m a0 h0 hpid
    unfold _get_gpu_proc
    rw [show listGet (pySplit line ", ") 0 = .ok a0 from listGet_eq_ok.mpr h0,
      except_ok_bind, hpid]
    rfl

/-- Witness for C5_coercion on concrete tokens and lines. -/
theorem C5_wit :
    to_float_or_inf "N/A" = PFloat.nan ∧
    to_float_or_inf "45" = PFloat.num 45 ∧
    (∃ g, _get_gpu "0, GPU-abc, N/A, 8000, 2000, 6000, 525.60, Tesla T4, SN123, Enabled, Active, 45" =
        .ok g ∧ g.gpu_util = to_float_or_inf "N/A" ∧ g.mem_total = to_float_or_inf "8000" ∧
        g.mem_used = to_float_or_inf "2000" ∧ g.mem_free = to_float_or_inf "6000" ∧
        g.temperature = to_float_or_inf "45") ∧
    _get_gpu_proc "abc, python3, GPU-zzz, Tesla V100, 2048" [] =
      .error "ValueError: invalid literal for int" :=
  ⟨C5_coercion.1 "N/A" (by decide),
   C5_coercion.2.1 "45" 45 (by decide),
   C5_coercion.2.2.1 "0, GPU-abc, N/A, 8000, 2000, 6000, 525.60, Tesla T4, SN123, Enabled, Active, 45"
     "0" "GPU-abc" "N/A" "8000" "2000" "6000" "525.60" "Tesla T4" "SN123" "Enabled" "Active" "45" []
     (by decide) (by decide),
   C5_coercion.2.2.2 "abc, python3, GPU-zzz, Tesla V100, 2048" [] "abc" (by decide) (by decide)⟩

/-! ## C8 -/

theorem filter_erase_of_not {p : String → Bool} {x : String} (hp : p x = false) :
    ∀ ls : List String, (ls.erase x).filter p = ls.filter p := by
  intro ls
  induction ls with
  | nil => rfl
  | cons a as ih =>
    by_cases hax : a = x
    · subst hax
      rw [List.erase_cons_head]
      rw [List.filter_cons_of_neg (by simp [hp])]
    · rw [List.erase_cons_tail (by simp [hax])]
      by_cases hpa : p a = true
      · rw [List.filter_cons_of_pos hpa, List.filter_cons_of_pos hpa, ih]
      · rw [List.filter_cons_of_neg (by simpa using hpa),
          List.filter_cons_of_neg (by simpa using hpa), ih]

/-- C8 (amended): a non-blank line with fewer fields than the schema is
a hard error that propagates.  For GPU lines (fewer than 12 fields) the
error is always the index-out-of-range class; for process lines (fewer
than 5 fields) it is the index-out-of-range class provided the pid token
itself parses as an integer — a malformed pid aborts even earlier, with
a ValueError instead.  Blank or whitespace-only lines never reach the
parser: erasing one from the captured output's line list leaves the
parse result unchanged. -/
theorem C8_structural :
    (∀ line values, pySplit line ", " = values → values.length < 12 →
      _get_gpu line = .error "IndexError: list index out of range") ∧
    (∀ line m values a0 n, pySplit line ", " = values →
      pyIndex values 0 = some a0 → pyIntOfString a0 = some n → values.length < 5 →
      _get_gpu_proc line m = .error "IndexError: list index out of range") ∧
    (∀ output l, l ∈ pySplit output "\n" → lineIsNonBlank l = false →
      get_gpus output =
        (((pySplit output "\n").erase l).filter lineIsNonBlank).mapM _get_gpu) := by
  refine ⟨?_, ?_, ?_⟩
  · intro line values hv hlen
    rcases values with
      _ | ⟨b0, _ | ⟨b1, _ | ⟨b2, _ | ⟨b3, _ | ⟨b4, _ | ⟨b5, _ | ⟨b6, _ | ⟨b7, _ | ⟨b8,
        _ | ⟨b9, _ | ⟨b10, _ | ⟨b11, rest⟩⟩⟩⟩⟩⟩⟩⟩⟩⟩⟩⟩ <;>
      first
        | (unfold _get_gpu; rw [hv]; rfl)
        | (simp only [List.length_cons] at hlen; omega)
  · intro line m values a0 n hv h0 hpid hlen
    rcases values with _ | ⟨b0, _ | ⟨b1, _ | ⟨b2, _ | ⟨b3, _ | ⟨b4, rest⟩⟩⟩⟩⟩
    · simp [pyIndex] at h0
    all_goals
      first
        | (rw [← Option.some.inj h0] at hpid
           unfold _get_gpu_proc
           rw [hv, listGet_cons_zero, except_ok_bind, hpid]
           rfl)
        | (simp only [List.length_cons, List.length_nil] at hlen; omega)
  · intro output l hl hblank
    unfold get_gpus
    rw [filter_erase_of_not hblank]

/-- Witness for C8_structural: a three-field GPU line and a three-field
process line both fail with IndexError, and erasing a whitespace-only
line from a captured output does not change the parse. -/
theorem C8_wit :
    _get_gpu "0, GPU-abc, 5" = .error "IndexError: list index out of range" ∧
    _get_gpu_proc "1234, python3, GPU-zzz" [] = .error "IndexError: list index out of range" ∧
    get_gpus "0, GPU-abc, 5, N/A, 2000, 6000, 525.60, Tesla T4, SN123, Enabled, Active, 45\n  \n" =
      (((pySplit "0, GPU-abc, 5, N/A, 2000, 6000, 525.60, Tesla T4, SN123, Enabled, Active, 45\n  \n" "\n").erase
        "  ").filter lineIsNonBlank).mapM _get_gpu :=
  ⟨C8_structural.1 "0, GPU-abc, 5" ["0", "GPU-abc", "5"] (by decide) (by decide),
   C8_structural.2.1 "1234, python3, GPU-zzz" [] ["1234", "python3", "GPU-zzz"] "1234" 1234
     (by decide) (by decide) (by decide) (by decide),
   C8_structural.2.2 "0, GPU-abc, 5, N/A, 2000, 6000, 525.60, Tesla T4, SN123, Enabled, Active, 45\n  \n"
     "  " (by decide) (by decide)⟩

/-! ## C6 -/

theorem pfSortLe_refl (p : PFloat) : pfSortLe p p = true := by
  cases p <;> simp [pfSortLe]

theorem pfSortLe_trans {a b c : PFloat} (hab : pfSortLe a b = true)
    (hbc : pfSortLe b c = true) : pfSortLe a c = true := by
  cases a with
  | nan => cases c <;> simp [pfSortLe]
  | num x =>
    cases b with
    | nan => simp [pfSortLe] at hab
    | num y =>
      cases c with
      | nan => simp [pfSortLe] at hbc
      | num z =>
        simp only [pfSortLe, decide_eq_true_eq] at hab hbc ⊢
        exact le_trans hab hbc

theorem pfSortLe_total (a b : PFloat) : (pfSortLe a b || pfSortLe b a) = true := by
  cases a <;> cases b <;> simp [pfSortLe, le_total]

theorem keyLeB_trans (k : SortKey) {a b c : GPU} (hab : keyLeB k a b = true)
    (hbc : keyLeB k b c = true) : keyLeB k a c = true := by
  cases k with
  | id =>
    simp only [keyLeB, decide_eq_true_eq] at hab hbc ⊢
    exact le_trans hab hbc
  | gpu_util => exact pfSortLe_trans hab hbc
  | mem_util => exact pfSortLe_trans hab hbc

theorem keyLeB_total (k : SortKey) (a b : GPU) : (keyLeB k a b || keyLeB k b a) = true := by
  cases k with
  | id => simp [keyLeB, le_total]
  | gpu_util => exact pfSortLe_total _ _
  | mem_util => exact pfSortLe_total _ _

/-- A stable sort leaves every tie class (elements selected by a
predicate on which the comparison is constantly true) in its original
order. -/
theorem mergeSort_filter_stable {α : Type} (le : α → α → Bool) (p : α → Bool)
    (htrans : ∀ (a b c : α), le a b → le b c → le a c)
    (htotal : ∀ (a b : α), le a b || le b a)
    (hp : ∀ x y, p x = true → p y = true → le x y = true) (l : List α) :
    (l.mergeSort le).filter p = l.filter p := by
  have hpair : (l.filter p).Pairwise (fun a b => le a b = true) := by
    apply List.pairwise_of_forall_mem_list
    intro a ha b hb
    rw [List.mem_filter] at ha hb
    exact hp a b ha.2 hb.2
  have h1 : List.Sublist (l.filter p) (l.mergeSort le) :=
    List.sublist_mergeSort htrans htotal hpair (List.filter_sublist l)
  have h2 : List.Sublist ((l.filter p).filter p) ((l.mergeSort le).filter p) := h1.filter p
  rw [List.filter_filter] at h2
  have hpp : (fun a => p a && p a) = p := by
    funext a
    rw [Bool.and_self]
  rw [hpp] at h2
  have h3 : ((l.mergeSort le).filter p).length = (l.filter p).length :=
    ((List.mergeSort_perm l le).filter p).length_eq
  exact (h2.eq_of_length h3.symm).symm

/-- Every record that survives the availability filter has finite
compute and memory utilization values. -/
theorem mem_avail_num {gpus : List GPU} {a b c : ℚ} {ids uuids : List String} {g : GPU}
    (h : g ∈ get_available_gpus gpus a b c ids uuids) :
    (∃ x, g.gpu_util = PFloat.num x) ∧ (∃ y, g.mem_util = PFloat.num y) := by
  unfold get_available_gpus at h
  rw [List.mem_filter] at h
  have hava := h.2
  rw [is_gpu_available] at hava
  simp only [Bool.and_eq_true] at hava
  obtain ⟨⟨⟨⟨h1, h2⟩, -⟩, -⟩, -⟩ := hava
  rw [leB_num_iff] at h1 h2
  obtain ⟨x, hx, -⟩ := h1
  obtain ⟨y, hy, -⟩ := h2
  exact ⟨⟨x, hx⟩, ⟨y, hy⟩⟩

/-- C6: the stable sort of a filtered collection is a permutation of it;
for each of the three keys the chosen-key values are non-decreasing along
the output (string order for id, rational order for the two utilization
keys, which are finite on filtered records); and every tie class keeps
its pre-sort relative order. -/
theorem C6_sort_spec (gpus : List GPU) (a b c : ℚ) (ids uuids : List String) :
    (∀ key, (nvsmiSort key (get_available_gpus gpus a b c ids uuids)).Perm
      (get_available_gpus gpus a b c ids uuids)) ∧
    (nvsmiSort .id (get_available_gpus gpus a b c ids uuids)).Pairwise
      (fun x y => x.id ≤ y.id) ∧
    (nvsmiSort .gpu_util (get_available_gpus gpus a b c ids uuids)).Pairwise
      (fun x y => ∃ u v, x.gpu_util = PFloat.num u ∧ y.gpu_util = PFloat.num v ∧ u ≤ v) ∧
    (nvsmiSort .mem_util (get_available_gpus gpus a b c ids uuids)).Pairwise
      (fun x y => ∃ u v, x.mem_util = PFloat.num u ∧ y.mem_util = PFloat.num v ∧ u ≤ v) ∧
    (∀ key z, (nvsmiSort key (get_available_gpus gpus a b c ids uuids)).filter (keyValEq key z) =
      (get_available_gpus gpus a b c ids uuids).filter (keyValEq key z)) := by
  refine ⟨?_, ?_, ?_, ?_, ?_⟩
  · intro key
    exact List.mergeSort_perm _ _
  · have h := @List.sorted_mergeSort GPU (keyLeB .id) (fun x y z => keyLeB_trans .id)
      (keyLeB_total .id) (get_available_gpus gpus a b c ids uuids)
    refine h.imp ?_
    intro x y hxy
    simpa only [keyLeB, decide_eq_true_eq] using hxy
  · have h := @List.sorted_mergeSort GPU (keyLeB .gpu_util) (fun x y z => keyLeB_trans .gpu_util)
      (keyLeB_total .gpu_util) (get_available_gpus gpus a b c ids uuids)
    refine List.Pairwise.imp_of_mem ?_ h
    intro x y hx hy hxy
    have hx' : x ∈ get_available_gpus gpus a b c ids uuids := List.mem_mergeSort.mp hx
    have hy' : y ∈ get_available_gpus gpus a b c ids uuids := List.mem_mergeSort.mp hy
    obtain ⟨⟨u, hu⟩, -⟩ := mem_avail_num hx'
    obtain ⟨⟨v, hv⟩, -⟩ := mem_avail_num hy'
    refine ⟨u, v, hu, hv, ?_⟩
    have hb : pfSortLe x.gpu_util y.gpu_util = true := hxy
    rw [hu, hv] at hb
    simpa only [pfSortLe, decide_eq_true_eq] using hb
  · have h := @List.sorted_mergeSort GPU (keyLeB .mem_util) (fun x y z => keyLeB_trans .mem_util)
      (keyLeB_total .mem_util) (get_available_gpus gpus a b c ids uuids)
    refine List.Pairwise.imp_of_mem ?_ h
    intro x y hx hy hxy
    have hx' : x ∈ get_available_gpus gpus a b c ids uuids := List.mem_mergeSort.mp hx
    have hy' : y ∈ get_available_gpus gpus a b c ids uuids := List.mem_mergeSort.mp hy
    obtain ⟨-, ⟨u, hu⟩⟩ := mem_avail_num hx'
    obtain ⟨-, ⟨v, hv⟩⟩ := mem_avail_num hy'
    refine ⟨u, v, hu, hv, ?_⟩
    have hb : pfSortLe x.mem_util y.mem_util = true := hxy
    rw [hu, hv] at hb
    simpa only [pfSortLe, decide_eq_true_eq] using hb
  · intro key z
    apply mergeSort_filter_stable (keyLeB key) (keyValEq key z)
      (fun x y w => keyLeB_trans key) (keyLeB_total key)
    intro x y hx hy
    cases key with
    | id =>
      simp only [keyValEq, beq_iff_eq] at hx hy
      simp only [keyLeB, hx, hy, decide_eq_true_eq]
      exact le_refl _
    | gpu_util =>
      simp only [keyValEq, beq_iff_eq] at hx hy
      simp only [keyLeB, hx, hy]
      exact pfSortLe_refl _
    | mem_util =>
      simp only [keyValEq, beq_iff_eq] at hx hy
      simp only [keyLeB, hx, hy]
      exact pfSortLe_refl _

/-! ## C10 -/

theorem mergeSort_pair {α : Type} (x y : α) (le : α → α → Bool) :
    List.mergeSort [x, y] le = if le x y then [x, y] else [y, x] := by
  rw [List.mergeSort]
  simp [List.splitInTwo_fst, List.splitInTwo_snd, List.merge]

/-- C10: the id attribute is the raw text token of the line (no integer
conversion), the id conjunct of the availability predicate is membership
of that string in the include list, and sorting by the id key orders
records by string comparison of the tokens — lexicographically, as the
concrete pair with ids "9" and "10" shows ("10" sorts before "9"). -/
theorem C10_raw_string_ids :
    (∀ line g, _get_gpu line = .ok g → pyIndex (pySplit line ", ") 0 = some g.id) ∧
    (∀ gpu a b c ids uuids,
      is_gpu_available gpu a b c ids uuids = true → gpu.id ∈ ids) ∧
    (∀ gpus : List GPU, (nvsmiSort .id gpus).Pairwise (fun x y => x.id ≤ y.id)) ∧
    nvsmiSort .id [gpuB9, gpuB10] = [gpuB10, gpuB9] ∧
    gpuB9.id = "9" ∧ gpuB10.id = "10" := by
  refine ⟨?_, ?_, ?_, ?_, rfl, rfl⟩
  · intro line g h
    obtain ⟨t0, t1, t2, t3, t4, t5, t6, t7, t8, t9, t10, t11, rest, hv, hid,
      -, -, -, -, -, -, -, -, -, -, -⟩ := get_gpu_shape h
    rw [hv, hid]
    rfl
  · intro gpu a b c ids uuids h
    rw [is_gpu_available] at h
    simp only [Bool.and_eq_true] at h
    obtain ⟨⟨⟨⟨-, -⟩, -⟩, h4⟩, -⟩ := h
    rw [List.contains, List.elem_iff] at h4
    exact h4
  · intro gpus
    have h := @List.sorted_mergeSort GPU (keyLeB .id) (fun x y z => keyLeB_trans .id)
      (keyLeB_total .id) gpus
    refine h.imp ?_
    intro x y hxy
    simpa only [keyLeB, decide_eq_true_eq] using hxy
  · have hno : keyLeB .id gpuB9 gpuB10 = false := by
      have hlt : ¬ (("9" : String) ≤ "10") := by
        rw [String.le_iff_toList_le]
        decide
      exact decide_eq_false hlt
    show List.mergeSort [gpuB9, gpuB10] (keyLeB .id) = [gpuB10, gpuB9]
    rw [mergeSort_pair, hno]
    rfl

/-- Witness for C10_raw_string_ids on a concrete line and record. -/
theorem C10_wit :
    pyIndex (pySplit "2, GPU-ghi, 3, N/A, 100, 200, 535.10, L4, SN77, Disabled, Inactive, 30" ", ") 0 =
      some (GPU.mk "2" "GPU-ghi" (.num 3) .nan .nan (.num 100) (.num 200) "535.10" "L4"
        "SN77" "Inactive" "Disabled" (.num 30)).id ∧
    gpuA.id ∈ ["0"] :=
  ⟨C10_raw_string_ids.1 "2, GPU-ghi, 3, N/A, 100, 200, 535.10, L4, SN77, Disabled, Inactive, 30"
     (GPU.mk "2" "GPU-ghi" (.num 3) .nan .nan (.num 100) (.num 200) "535.10" "L4"
       "SN77" "Inactive" "Disabled" (.num 30)) (by decide),
   C10_raw_string_ids.2.1 gpuA 100 100 0 ["0"] ["GPU-a"] (by decide)⟩

/-- C8 fails as stated for process lines: the non-blank one-field line
"abc" has fewer than five fields, yet the hard error aborting its parse
is the integer-conversion ValueError (raised by the strict pid parse),
not the index-out-of-range class the claim names. -/
theorem C8_cex :
    lineIsNonBlank "abc" = true ∧
    (pySplit "abc" ", ").length < 5 ∧
    _get_gpu_proc "abc" [] = .error "ValueError: invalid literal for int" ∧
    _get_gpu_proc "abc" [] ≠ .error "IndexError: list index out of range" :=
  ⟨by decide, by decide, by decide, by decide⟩
